import Mathlib

set_option autoImplicit false

/-!
Verification development for the valipokkann/toymaker browser toy scripts.

The repository holds several near-duplicate client scripts that load a GLTF
jumping-jack model, locate named sub-objects, optionally create physics
bodies/constraints mirroring them, and each animation frame step the physics
engine and copy the resulting transforms onto the render objects.

This file shallowly embeds the parts of those scripts needed to settle the
frozen claims:

* `CannonKinematic` : the Cannon.js kinematic-driver variant (first document
  in `src/app.js`): mouse normalization, tilt angles, quaternion lerp and
  renormalization of the kinematic body, toy-part discovery, physics setup,
  the per-frame animate loop, and the shared mouse-wheel zoom handler.
* `CannonBasic` : the basic Cannon.js variant (`src/unnamed/part_001`):
  the load-callback decision to skip physics setup and the kinematic
  rotation fallback in `updateToyInteraction`.
* `AmmoMotor` : the motor-based Ammo.js variant (second document in
  `src/app.js`): `validatePhysicsAuthority`, `safeSetWorldTransform` and
  `syncPhysicsToThree` with its parent and NaN guards.

JavaScript numbers are modelled as exact rationals (`ℚ`) where the code only
does field arithmetic and comparisons, and as reals (`ℝ`) where the code uses
`Math.PI` or `Math.sqrt`.  NaN is modelled by `Option ℚ` components (`none`
standing for NaN), which is all the sync guard inspects.  Console output is
modelled as lists of event tags.
-/

/-- The four limbs of the jumping-jack toy. -/
inductive Limb
  | leftArm
  | rightArm
  | leftLeg
  | rightLeg
deriving DecidableEq, Repr

/-- Traversal order of the limbs, as the scripts enumerate them. -/
def limbList : List Limb := [.leftArm, .rightArm, .leftLeg, .rightLeg]

/-- A 3-vector with exact rational components. -/
structure Vec3 where
  x : ℚ
  y : ℚ
  z : ℚ
deriving DecidableEq, Repr

/-- Componentwise vector subtraction (`THREE.Vector3.sub`). -/
def Vec3.sub (a b : Vec3) : Vec3 := ⟨a.x - b.x, a.y - b.y, a.z - b.z⟩

/-- A quaternion with exact rational components. -/
structure Quat4 where
  x : ℚ
  y : ℚ
  z : ℚ
  w : ℚ
deriving DecidableEq, Repr

/-- A rigid/render transform: position plus orientation. -/
structure Xform where
  pos : Vec3
  rot : Quat4
deriving DecidableEq, Repr

namespace CannonKinematic

/-!  Mouse normalization (`onMouseMove`, src/app.js lines 500-506):
`mouse.x = (event.clientX / window.innerWidth) * 2 - 1` and
`mouse.y = -(event.clientY / window.innerHeight) * 2 + 1`. -/

/-- Normalized device x-coordinate computed by `onMouseMove`. -/
def mouseXOf (clientX innerWidth : ℚ) : ℚ :=
  clientX / innerWidth * 2 - 1

/-- Normalized device y-coordinate computed by `onMouseMove`. -/
def mouseYOf (clientY innerHeight : ℚ) : ℚ :=
  -(clientY / innerHeight) * 2 + 1

/-- `const maxToyTiltX = Math.PI / 6` (±30 degrees front/back tilt). -/
noncomputable def maxToyTiltX : ℝ := Real.pi / 6

/-- `const maxToyTiltY = Math.PI / 8` (±22.5 degrees left/right tilt). -/
noncomputable def maxToyTiltY : ℝ := Real.pi / 8

/-- `const leftRightAngle = mouse.x * maxToyTiltY` in `updateToyInteraction`. -/
noncomputable def leftRightAngle (mouseX : ℚ) : ℝ :=
  (mouseX : ℝ) * maxToyTiltY

/-- `const frontBackAngle = mouse.y * maxToyTiltX` in `updateToyInteraction`. -/
noncomputable def frontBackAngle (mouseY : ℚ) : ℝ :=
  (mouseY : ℝ) * maxToyTiltX

/-!  Mouse-wheel zoom (`onMouseWheel`, src/app.js lines 543-558; the same
handler appears verbatim in every variant, e.g. src/unnamed/part_003
lines 491-506). -/

/-- `const ZOOM_SPEED = 0.1`. -/
def ZOOM_SPEED : ℚ := 1/10

/-- `const MIN_ZOOM_DISTANCE = 5`. -/
def MIN_ZOOM_DISTANCE : ℚ := 5

/-- `const MAX_ZOOM_DISTANCE = 25`. -/
def MAX_ZOOM_DISTANCE : ℚ := 25

/-- `let currentZoomDistance = 12`. -/
def initialZoomDistance : ℚ := 12

/-- One `onMouseWheel` event: `zoomDelta = deltaY > 0 ? 1 : -1`, then
`currentZoomDistance += zoomDelta * ZOOM_SPEED` clamped by
`Math.max(MIN, Math.min(MAX, .))`. -/
def stepZoom (z deltaY : ℚ) : ℚ :=
  let zoomDelta : ℚ := if deltaY > 0 then 1 else -1
  max MIN_ZOOM_DISTANCE (min MAX_ZOOM_DISTANCE (z + zoomDelta * ZOOM_SPEED))

/-- Zoom distance after a sequence of wheel events, starting from 12. -/
def zoomAfter (deltas : List ℚ) : ℚ :=
  deltas.foldl stepZoom initialZoomDistance

/-- `camera.position.set(0, cameraHeight, currentZoomDistance)` with
`cameraHeight = 8`, executed after every wheel event. -/
def cameraPositionFor (z : ℚ) : Vec3 := ⟨0, 8, z⟩

/-- `camera.lookAt(0, 0, 0)`: the look-at target after every wheel event. -/
def cameraLookAtTarget : Vec3 := ⟨0, 0, 0⟩

/-- The complete `onMouseWheel` handler: the updated zoom distance together
with the camera position and look-at target it sets. -/
def onMouseWheel (z deltaY : ℚ) : ℚ × Vec3 × Vec3 :=
  let zNew := stepZoom z deltaY
  (zNew, cameraPositionFor zNew, cameraLookAtTarget)

/-!  Kinematic-driver orientation update (`updateToyInteraction`,
src/app.js lines 581-598).  The body quaternion is linearly interpolated
towards `spinQuaternion.mult(tiltQuaternion)` with `slerpFactor = 0.15`,
then renormalized when the interpolated length is positive.  Components are
real because the length uses `Math.sqrt`. -/

/-- A quaternion with real components, as `updateToyInteraction` mutates it. -/
structure QuatR where
  x : ℝ
  y : ℝ
  z : ℝ
  w : ℝ

/-- `const slerpFactor = 0.15`. -/
noncomputable def slerpFactor : ℝ := 0.15

/-- Componentwise linear interpolation
`bodyBody.quaternion.c = bodyBody.quaternion.c * (1 - slerpFactor) + targetQuat.c * slerpFactor`. -/
noncomputable def lerpQuat (q target : QuatR) : QuatR :=
  ⟨q.x * (1 - slerpFactor) + target.x * slerpFactor,
   q.y * (1 - slerpFactor) + target.y * slerpFactor,
   q.z * (1 - slerpFactor) + target.z * slerpFactor,
   q.w * (1 - slerpFactor) + target.w * slerpFactor⟩

/-- `const len = Math.sqrt(x**2 + y**2 + z**2 + w**2)`. -/
noncomputable def quatLen (q : QuatR) : ℝ :=
  Real.sqrt (q.x ^ 2 + q.y ^ 2 + q.z ^ 2 + q.w ^ 2)

/-- The normalize-to-prevent-drift step: divide each component by `len`
when `len > 0`, otherwise leave the quaternion unchanged. -/
noncomputable def normalizeQuatStep (q : QuatR) : QuatR :=
  if 0 < quatLen q then
    ⟨q.x / quatLen q, q.y / quatLen q, q.z / quatLen q, q.w / quatLen q⟩
  else q

/-- The full quaternion update of `updateToyInteraction`: lerp towards the
spin-times-tilt target, then conditionally renormalize. -/
noncomputable def updateBodyQuaternion (current target : QuatR) : QuatR :=
  normalizeQuatStep (lerpQuat current target)

/-!  Toy-part discovery (`findToyParts`, src/app.js lines 139-241) and
physics setup (`setupPhysicsBodies`, src/app.js lines 244-462).
`findToyParts` traverses the loaded scene and records exact name matches:
`body_main` only sets a found flag, while `left_arm`, `right_arm`,
`left_leg`, `right_leg` also store the node reference (later assignments
overwrite earlier ones).  `setupPhysicsBodies` always adds the kinematic
`bodyBody`, then one dynamic body and one hinge constraint per limb whose
reference exists. -/

/-- A named node of the loaded GLTF scene, with its world transform. -/
structure SceneNode where
  name : String
  xf : Xform
deriving DecidableEq, Repr

/-- Which of the five expected names were found (the `foundParts` record). -/
structure FoundParts where
  body : Bool
  leftArm : Bool
  rightArm : Bool
  leftLeg : Bool
  rightLeg : Bool
deriving DecidableEq, Repr

/-- The GLTF name the script matches for a limb reference. -/
def limbName : Limb → String
  | .leftArm => "left_arm"
  | .rightArm => "right_arm"
  | .leftLeg => "left_leg"
  | .rightLeg => "right_leg"

/-- Reference assignment during traversal: repeated `ref = child` keeps the
last node whose name matches exactly. -/
def findRef (scene : List SceneNode) (nm : String) : Option SceneNode :=
  scene.foldl (fun acc n => if n.name = nm then some n else acc) none

/-- The `foundParts` flags computed by `findToyParts`. -/
def findToyParts (scene : List SceneNode) : FoundParts :=
  { body := (findRef scene "body_main").isSome
    leftArm := (findRef scene "left_arm").isSome
    rightArm := (findRef scene "right_arm").isSome
    leftLeg := (findRef scene "left_leg").isSome
    rightLeg := (findRef scene "right_leg").isSome }

/-- The limb references left in the globals after `findToyParts`. -/
def limbRefsOf (scene : List SceneNode) (l : Limb) : Option SceneNode :=
  findRef scene (limbName l)

/-- Number of found-named-node flags set by `findToyParts`. -/
def foundCount (fp : FoundParts) : Nat :=
  (cond fp.body 1 0) + (cond fp.leftArm 1 0) + (cond fp.rightArm 1 0) +
    (cond fp.leftLeg 1 0) + (cond fp.rightLeg 1 0)

/-- A Cannon.js rigid body as `setupPhysicsBodies` creates it.  `owner none`
is the kinematic `bodyBody`; `owner (some l)` is the dynamic body of limb
`l`. -/
structure CBody where
  owner : Option Limb
  mass : ℚ
  kinematic : Bool
  halfExtents : Vec3
  pos : Vec3
  rot : Quat4
  angularDamping : ℚ
deriving DecidableEq, Repr

/-- A Cannon.js hinge constraint between `bodyBody` and a limb body. -/
structure CHinge where
  limb : Limb
  pivotA : Vec3
  pivotB : Vec3
  axisA : Vec3
  axisB : Vec3
deriving DecidableEq, Repr

/-- Mass of each dynamic limb body (0.8 for arms, 1.2 for legs). -/
def limbMass : Limb → ℚ
  | .leftArm => 4/5
  | .rightArm => 4/5
  | .leftLeg => 6/5
  | .rightLeg => 6/5

/-- Box half extents of each limb body. -/
def limbHalfExtents : Limb → Vec3
  | .leftArm => ⟨1/50, 2/5, 1/50⟩
  | .rightArm => ⟨1/50, 2/5, 1/50⟩
  | .leftLeg => ⟨3/100, 1/2, 3/100⟩
  | .rightLeg => ⟨3/100, 1/2, 3/100⟩

/-- Mechanical joint position (`pivotA`) for each limb hinge. -/
def limbPivotA : Limb → Vec3
  | .leftArm => ⟨-(3/20), 2/5, 0⟩
  | .rightArm => ⟨3/20, 2/5, 0⟩
  | .leftLeg => ⟨-(3/25), -(2/5), 0⟩
  | .rightLeg => ⟨3/25, -(2/5), 0⟩

/-- Hinge axis for each limb (X for arms, Z for legs). -/
def limbAxis : Limb → Vec3
  | .leftArm => ⟨1, 0, 0⟩
  | .rightArm => ⟨1, 0, 0⟩
  | .leftLeg => ⟨0, 0, 1⟩
  | .rightLeg => ⟨0, 0, 1⟩

/-- The kinematic stick/torso body, always created first:
`type KINEMATIC, mass 0`, box half extents `(0.05, 1, 0.05)`, placed at the
physics origin with identity orientation. -/
def kinematicBodyBody : CBody :=
  { owner := none
    mass := 0
    kinematic := true
    halfExtents := ⟨1/20, 1, 1/20⟩
    pos := ⟨0, 0, 0⟩
    rot := ⟨0, 0, 0, 1⟩
    angularDamping := 0 }

/-- The dynamic body created for limb `l` whose reference has world
transform `xf`: position is the limb world position minus the body world
position, orientation is the limb world quaternion, `angularDamping = 0.4`. -/
def mkLimbBody (bodyWorldPos : Vec3) (l : Limb) (xf : Xform) : CBody :=
  { owner := some l
    mass := limbMass l
    kinematic := false
    halfExtents := limbHalfExtents l
    pos := xf.pos.sub bodyWorldPos
    rot := xf.rot
    angularDamping := 2/5 }

/-- The hinge constraint created for limb `l`:
`pivotB = (0,0,0)`, `axisA = axisB = limbAxis l`. -/
def mkLimbHinge (l : Limb) : CHinge :=
  { limb := l
    pivotA := limbPivotA l
    pivotB := ⟨0, 0, 0⟩
    axisA := limbAxis l
    axisB := limbAxis l }

/-- `setupPhysicsBodies`: the list of rigid bodies added to the world and
the list of hinge constraints added, given the limb references found in the
scene.  The kinematic `bodyBody` is always added; each limb whose reference
exists contributes exactly one dynamic body, and each limb whose body was
created contributes exactly one hinge constraint. -/
def setupPhysicsBodies (bodyWorldPos : Vec3) (refs : Limb → Option SceneNode) :
    List CBody × List CHinge :=
  let bodies :=
    kinematicBodyBody ::
      limbList.filterMap fun l => (refs l).map fun n => mkLimbBody bodyWorldPos l n.xf
  let hinges := limbList.filterMap fun l => (refs l).map fun _ => mkLimbHinge l
  (bodies, hinges)

/-!  Per-frame animate loop (`animate`, src/app.js lines 608-651).  The
frame body schedules the next frame, then - when `world` and `bodyBody`
exist - steps the physics world once with `world.step(1/60)` and copies each
physics body transform onto the matching render object, and finally renders.
`world.step` is an external SDK call, modelled as an opaque function on the
physics snapshot.  The try/catch error handling is modelled separately for
the temporal claim. -/

/-- The physics-side transforms stepped by `world.step`. -/
structure PhysSnapshot where
  bodyXf : Xform
  limbXf : Limb → Xform

/-- Mutable state touched by one animation frame. -/
structure KFrameState where
  bodyPresent : Bool
  steps : Nat
  bodyXf : Xform
  limbBodyPresent : Limb → Bool
  limbBodyXf : Limb → Xform
  toyGroupPresent : Bool
  toyGroupXf : Xform
  limbRefPresent : Limb → Bool
  limbRefXf : Limb → Xform

/-- The render-object transforms passed to `renderer.render` at the end of
the frame. -/
structure RenderedScene where
  toyGroupXf : Xform
  limbXf : Limb → Xform

/-- One animation frame: when `world && bodyBody`, step the world exactly
once, copy the stepped body transforms onto every render object whose
reference and rigid body both exist, then render the resulting scene. -/
def animateFrame (stepWorld : PhysSnapshot → PhysSnapshot) (st : KFrameState) :
    KFrameState × RenderedScene :=
  if st.bodyPresent then
    let s := stepWorld ⟨st.bodyXf, st.limbBodyXf⟩
    let toy := if st.toyGroupPresent then s.bodyXf else st.toyGroupXf
    let limb := fun l =>
      if st.limbRefPresent l && st.limbBodyPresent l then s.limbXf l else st.limbRefXf l
    ({ st with
        steps := st.steps + 1
        bodyXf := s.bodyXf
        limbBodyXf := s.limbXf
        toyGroupXf := toy
        limbRefXf := limb },
     ⟨toy, limb⟩)
  else (st, ⟨st.toyGroupXf, st.limbRefXf⟩)

/-!  Exception behaviour of the animate loop (src/app.js lines 608-651; the
same try/catch shape appears in src/unnamed/part_002 lines 463-487).  The
try block runs `requestAnimationFrame(animate)` first, then the physics
step and sync, then `renderer.render`.  The catch block logs the error,
calls `requestAnimationFrame(animate)` again and then calls
`renderer.render` once more - and that render call is not itself guarded.
Faults record which external calls throw in this frame. -/

/-- Which statements of the frame body throw during this frame. -/
structure FrameFaults where
  stepThrows : Bool
  renderThrows : Bool
deriving DecidableEq, Repr

/-- The observable outcome of one run of `animate`. -/
structure AnimateRun where
  framesScheduled : Nat
  errorLogged : Bool
  raised : Bool
deriving DecidableEq, Repr

/-- Whether the try block of the frame body throws. -/
def tryBodyThrows (f : FrameFaults) : Bool :=
  f.stepThrows || f.renderThrows

/-- The try block: `requestAnimationFrame` schedules one callback, then the
physics step runs, then the render call; either external call may throw. -/
def tryBlockRun (f : FrameFaults) : Nat × Bool :=
  (1, tryBodyThrows f)

/-- The catch block: log the error, schedule one more callback, then call
`renderer.render` again; if that render call throws, the exception leaves
`animate` uncaught. -/
def catchBlockRun (f : FrameFaults) : Nat × Bool × Bool :=
  (1, true, f.renderThrows)

/-- One run of `animate` under the given faults. -/
def animateRun (f : FrameFaults) : AnimateRun :=
  let t := tryBlockRun f
  if t.2 then
    let c := catchBlockRun f
    { framesScheduled := t.1 + c.1, errorLogged := c.2.1, raised := c.2.2 }
  else
    { framesScheduled := t.1, errorLogged := false, raised := false }

end CannonKinematic

namespace CannonBasic

/-!  The basic Cannon.js variant, `src/unnamed/part_001`. -/

/-- Console messages emitted by the GLTF load callback and the physics
setup fallback. -/
inductive LoadLog
  | foundPartsSettingUp   -- "Found GLTF parts, setting up physics..."
  | warnNoPartsFound      -- "No GLTF parts found, skipping physics setup"
  | hintCheckNames        -- "Check that your GLTF file has objects named..."
deriving DecidableEq, Repr

/-- A JavaScript runtime error observable in part_001's load path. -/
inductive JsError
  | referenceError
deriving DecidableEq, Repr

/-- part_001 never declares the four limb reference variables
(`leftArmRef`, `rightArmRef`, `leftLegRef`, `rightLegRef`; compare app.js
line 74, which does declare them): the traversal's matching assignments
create them as globals when a limb matches.  Reading one yields its
(truthy) node when it was assigned and throws a `ReferenceError` when it
was not.  `assigned l` records whether the traversal assigned limb `l`. -/
def readLimbRef (assigned : Limb → Bool) (l : Limb) : Except JsError Bool :=
  if assigned l then .ok true else .error .referenceError

/-- The guard read after the traversal (part_001 line 206):
`if (!leftArmRef || !rightArmRef || !leftLegRef || !rightLegRef)`,
evaluated left to right over the never-declared variables.  It throws at
the first limb the traversal did not assign; when all four were assigned
the references are truthy objects, the disjunction completes false and the
position-based fallback block is skipped, so `findToyParts` only ever
returns normally with every limb reference assigned. -/
def findToyPartsTail (assigned : Limb → Bool) : Except JsError Unit :=
  match readLimbRef assigned .leftArm with
  | .error e => .error e
  | .ok _ =>
    match readLimbRef assigned .rightArm with
    | .error e => .error e
    | .ok _ =>
      match readLimbRef assigned .leftLeg with
      | .error e => .error e
      | .ok _ =>
        match readLimbRef assigned .rightLeg with
        | .error e => .error e
        | .ok _ => .ok ()

/-- `const hasAnyParts = leftArmRef || rightArmRef || leftLegRef ||
rightLegRef` (part_001 line 113): short-circuit reads of the
never-declared variables. -/
def hasAnyPartsRead (assigned : Limb → Bool) : Except JsError Bool :=
  match readLimbRef assigned .leftArm with
  | .error e => .error e
  | .ok a =>
    if a then .ok true
    else
      match readLimbRef assigned .rightArm with
      | .error e => .error e
      | .ok b =>
        if b then .ok true
        else
          match readLimbRef assigned .leftLeg with
          | .error e => .error e
          | .ok c =>
            if c then .ok true
            else readLimbRef assigned .rightLeg

/-- How many dynamic limb bodies `setupPhysicsBodies` creates: one per limb
whose reference exists (part_001 lines 254-290). -/
def countLimbBodies (refs : Limb → Bool) : Nat :=
  (limbList.filter fun l => refs l).length

/-- The load callback from the `findToyParts` call on (part_001 lines
110-120): run the traversal's guard reads, then read `hasAnyParts` and
either run `setupPhysicsBodies` (adding the static `bodyBody` plus one
body per assigned limb) or log the missing-parts warning and skip setup.
A `ReferenceError` escaping `findToyParts` aborts the callback before
either branch, creating no bodies and logging neither message. -/
def onLoadPhysics (assigned : Limb → Bool) : Except JsError (Nat × List LoadLog) :=
  match findToyPartsTail assigned with
  | .error e => .error e
  | .ok _ =>
    match hasAnyPartsRead assigned with
    | .error e => .error e
    | .ok h =>
      if h then .ok (1 + countLimbBodies assigned, [.foundPartsSettingUp])
      else .ok (0, [.warnNoPartsFound, .hintCheckNames])

/-- The console messages a run of the load callback produced (none when it
was aborted by an exception). -/
def logsOf (r : Except JsError (Nat × List LoadLog)) : List LoadLog :=
  match r with
  | .ok (_, logs) => logs
  | .error _ => []

/-- `const maxToyTiltX = Math.PI / 6` in part_001. -/
noncomputable def maxToyTiltX : ℝ := Real.pi / 6

/-- `const maxToyTiltY = Math.PI / 8` in part_001. -/
noncomputable def maxToyTiltY : ℝ := Real.pi / 8

/-- State touched by part_001's `updateToyInteraction`: the optional
physics body (null after a setup failure), the toy group with its Euler
rotation, and the physics torque / angular-velocity registers. -/
structure ToyState where
  bodyBodyPresent : Bool
  toyGroupPresent : Bool
  torque : Vec3
  angularVelocity : Vec3
  rotationX : ℝ
  rotationY : ℝ

/-- part_001 `updateToyInteraction` (lines 463-490): with a physics body,
set the torque from the mouse and damp the angular velocity by 0.95; with
no physics body but a loaded toy group, fall back to simple kinematic
rotation `rotation.y = mouse.x * maxToyTiltY`,
`rotation.x = mouse.y * maxToyTiltX`. -/
noncomputable def updateToyInteraction (st : ToyState) (mouseX mouseY : ℚ) : ToyState :=
  if st.bodyBodyPresent then
    { st with
        torque := ⟨mouseY * 2, 0, mouseX * 2⟩
        angularVelocity :=
          ⟨st.angularVelocity.x * (19/20), st.angularVelocity.y * (19/20),
           st.angularVelocity.z * (19/20)⟩ }
  else if st.toyGroupPresent then
    { st with
        rotationY := (mouseX : ℝ) * maxToyTiltY
        rotationX := (mouseY : ℝ) * maxToyTiltX }
  else st

end CannonBasic

namespace AmmoMotor

/-!  The motor-based Ammo.js variant (second document in `src/app.js`). -/

/-- The torso rigid body as `validatePhysicsAuthority` inspects it:
whether `getMotionState` is a function, and the Ammo collision flags. -/
structure ATorso where
  hasMotionStateFn : Bool
  collisionFlags : Nat
deriving DecidableEq, Repr

/-- The hard "PHYSICS AUTHORITY VIOLATION" exceptions thrown by the
fail-fast safety checks. -/
inductive AuthorityError
  | torsoMissing
  | torsoNotRigidBody
  | torsoKinematic
  | manualTorsoTransform
deriving DecidableEq, Repr

/-- `validatePhysicsAuthority` (src/app.js lines 758-775): throw when the
torso body is absent, when it lacks a `getMotionState` function, or when
collision flag bit `CF_KINEMATIC_OBJECT = 2` is set; otherwise succeed. -/
def validatePhysicsAuthority (torso : Option ATorso) : Except AuthorityError Unit :=
  match torso with
  | none => .error .torsoMissing
  | some t =>
    if !t.hasMotionStateFn then .error .torsoNotRigidBody
    else if t.collisionFlags &&& 2 ≠ 0 then .error .torsoKinematic
    else .ok ()

/-- An Ammo rigid body for `safeSetWorldTransform`, identified by object
identity and carrying the transform held by its motion state. -/
structure ABody where
  id : Nat
  motionStateXf : Xform
deriving DecidableEq, Repr

/-- `safeSetWorldTransform` (src/app.js lines 777-782): throw when called
with the torso body, otherwise forward the given transform to the body's
motion state unchanged. -/
def safeSetWorldTransform (torsoId : Nat) (body : ABody) (tf : Xform) :
    Except AuthorityError ABody :=
  if body.id = torsoId then .error .manualTorsoTransform
  else .ok { body with motionStateXf := tf }

/-- Whether an `Except` result is an exception. -/
def isError {α : Type} (r : Except AuthorityError α) : Bool :=
  match r with
  | .error _ => true
  | .ok _ => false

/-!  `syncPhysicsToThree` (src/app.js lines 1675-1763).  Float components
read from the physics transform are modelled as `Option ℚ`, with `none`
standing for NaN - the only property the guard inspects. -/

/-- A physics-side transform whose components may be NaN (`none`). -/
structure NXform where
  px : Option ℚ
  py : Option ℚ
  pz : Option ℚ
  qx : Option ℚ
  qy : Option ℚ
  qz : Option ℚ
  qw : Option ℚ
deriving DecidableEq, Repr

/-- `isNaN(p.x()) || ... || isNaN(q.w())`. -/
def NXform.hasNaN (t : NXform) : Bool :=
  t.px.isNone || t.py.isNone || t.pz.isNone ||
    t.qx.isNone || t.qy.isNone || t.qz.isNone || t.qw.isNone

/-- A Three.js-side transform (position plus quaternion components). -/
structure RXform where
  px : ℚ
  py : ℚ
  pz : ℚ
  qx : ℚ
  qy : ℚ
  qz : ℚ
  qw : ℚ
deriving DecidableEq, Repr

/-- `ref.position.set(p.x(), p.y(), p.z()); ref.quaternion.set(...)` on a
transform already checked to be NaN-free. -/
def writeXform (t : NXform) : RXform :=
  ⟨t.px.getD 0, t.py.getD 0, t.pz.getD 0,
   t.qx.getD 0, t.qy.getD 0, t.qz.getD 0, t.qw.getD 0⟩

/-- An Ammo rigid body whose motion state may be null. -/
structure MBody where
  motionState : Option NXform
deriving DecidableEq, Repr

/-- A detached limb reference: whether its parent is the scene. -/
structure DetachedRef where
  parentIsScene : Bool
deriving DecidableEq, Repr

/-- Everything `syncPhysicsToThree` reads and writes. -/
structure SyncState where
  ammoLoaded : Bool
  torsoBody : Option MBody
  bodyMainPresent : Bool
  limbRefs : Limb → Option DetachedRef
  limbBodies : Limb → Option MBody
  torsoRender : RXform
  limbRender : Limb → RXform

/-- The Three.js transforms after the sync pass. -/
structure SyncOut where
  torsoRender : RXform
  limbRender : Limb → RXform

/-- The output when the function returns without writing anything. -/
def unchangedOut (st : SyncState) : SyncOut :=
  ⟨st.torsoRender, st.limbRender⟩

/-- The safety guard (src/app.js lines 1681-1690): some limb reference
exists whose parent is not the scene. -/
def limbsStillParented (st : SyncState) : Bool :=
  limbList.any fun l =>
    match st.limbRefs l with
    | some r => !r.parentIsScene
    | none => false

/-- The per-limb sync in the `limbs.forEach` loop: write the limb's physics
transform onto its reference when body, reference and motion state exist
and the transform is NaN-free; a NaN transform only skips that limb. -/
def syncLimbWrite (st : SyncState) (l : Limb) : RXform :=
  match st.limbBodies l, st.limbRefs l with
  | some b, some _ =>
    match b.motionState with
    | some t => if t.hasNaN then st.limbRender l else writeXform t
    | none => st.limbRender l
  | _, _ => st.limbRender l

/-- `syncPhysicsToThree`: return untouched when Ammo or the torso body is
missing, or when some limb is still parented; sync the torso when
`bodyMainRef` exists and its motion state holds a NaN-free transform,
returning early - before any write - when the torso transform contains a
NaN component; then sync each limb. -/
def syncPhysicsToThree (st : SyncState) : SyncOut :=
  if !st.ammoLoaded || st.torsoBody.isNone then unchangedOut st
  else if limbsStillParented st then unchangedOut st
  else
    match st.torsoBody with
    | some tb =>
      if st.bodyMainPresent then
        match tb.motionState with
        | some t =>
          if t.hasNaN then unchangedOut st
          else ⟨writeXform t, fun l => syncLimbWrite st l⟩
        | none => ⟨st.torsoRender, fun l => syncLimbWrite st l⟩
      else ⟨st.torsoRender, fun l => syncLimbWrite st l⟩
    | none => unchangedOut st

end AmmoMotor

/-!  ## Theorems -/

/-- Helper: the zoom distance produced by a single wheel event always lies
between the zoom limits. -/
theorem stepZoom_mem (z dy : ℚ) :
    CannonKinematic.MIN_ZOOM_DISTANCE ≤ CannonKinematic.stepZoom z dy ∧
      CannonKinematic.stepZoom z dy ≤ CannonKinematic.MAX_ZOOM_DISTANCE := by
  simp only [CannonKinematic.stepZoom]
  refine ⟨le_max_left _ _, max_le ?_ (min_le_left _ _)⟩
  norm_num [CannonKinematic.MIN_ZOOM_DISTANCE, CannonKinematic.MAX_ZOOM_DISTANCE]

/-- Helper: folding wheel events over a zoom distance inside the limits
keeps it inside the limits. -/
theorem zoomFold_mem (ds : List ℚ) (z : ℚ)
    (h1 : CannonKinematic.MIN_ZOOM_DISTANCE ≤ z)
    (h2 : z ≤ CannonKinematic.MAX_ZOOM_DISTANCE) :
    CannonKinematic.MIN_ZOOM_DISTANCE ≤ ds.foldl CannonKinematic.stepZoom z ∧
      ds.foldl CannonKinematic.stepZoom z ≤ CannonKinematic.MAX_ZOOM_DISTANCE := by
  induction ds generalizing z with
  | nil => exact ⟨h1, h2⟩
  | cons d ds ih =>
    simp only [List.foldl_cons]
    exact ih _ (stepZoom_mem z d).1 (stepZoom_mem z d).2

/-- Helper: one wheel event moves the zoom distance by at most 0.1, upward
when `deltaY > 0` and downward when `deltaY ≤ 0`, provided the current
distance is inside the limits. -/
theorem stepZoom_move (z dy : ℚ)
    (h1 : CannonKinematic.MIN_ZOOM_DISTANCE ≤ z)
    (h2 : z ≤ CannonKinematic.MAX_ZOOM_DISTANCE) :
    |CannonKinematic.stepZoom z dy - z| ≤ CannonKinematic.ZOOM_SPEED ∧
      (0 < dy → z ≤ CannonKinematic.stepZoom z dy) ∧
      (dy ≤ 0 → CannonKinematic.stepZoom z dy ≤ z) := by
  simp only [CannonKinematic.stepZoom, CannonKinematic.ZOOM_SPEED,
    CannonKinematic.MIN_ZOOM_DISTANCE, CannonKinematic.MAX_ZOOM_DISTANCE] at *
  split_ifs with hdy
  · have h3 : min 25 (z + 1 * (1/10)) ≤ z + 1 * (1/10) := min_le_right _ _
    have h4 : z ≤ min 25 (z + 1 * (1/10)) := le_min (by linarith) (by linarith)
    have h5 : z ≤ max 5 (min 25 (z + 1 * (1/10))) := le_trans h4 (le_max_right _ _)
    have h6 : max 5 (min 25 (z + 1 * (1/10))) ≤ z + 1 * (1/10) :=
      max_le (by linarith) h3
    refine ⟨abs_le.mpr ⟨by linarith, by linarith⟩, fun _ => h5, fun hc => ?_⟩
    linarith
  · have h3 : min 25 (z + (-1) * (1/10)) = z + (-1) * (1/10) :=
      min_eq_right (by linarith)
    have h5 : z + (-1) * (1/10) ≤ max 5 (min 25 (z + (-1) * (1/10))) := by
      rw [h3]; exact le_max_right _ _
    have h6 : max 5 (min 25 (z + (-1) * (1/10))) ≤ z := by
      rw [h3]; exact max_le (by linarith) (by linarith)
    refine ⟨abs_le.mpr ⟨by linarith, by linarith⟩, fun hc => absurd hc hdy, fun _ => h6⟩

/-- C8 counterexample: a wheel event with `deltaY = 0` strictly decreases
the zoom distance (from 12 to 11.9) even though the sign of `deltaY` is
zero, because the code maps every non-positive `deltaY` to the zoom-in
direction: the change is not "in the direction given by the sign of
deltaY". -/
theorem c8_zoom_counterexample :
    CannonKinematic.stepZoom 12 0 = 119/10 ∧
      CannonKinematic.stepZoom 12 0 < 12 ∧ ¬(0 < (0 : ℚ)) := by
  have h : CannonKinematic.stepZoom 12 0 = 119/10 := by
    simp only [CannonKinematic.stepZoom, CannonKinematic.ZOOM_SPEED,
      CannonKinematic.MIN_ZOOM_DISTANCE, CannonKinematic.MAX_ZOOM_DISTANCE]
    norm_num [min_def, max_def]
  refine ⟨h, by rw [h]; norm_num, by norm_num⟩

/-- C8 (amended): starting from 12, after every sequence of wheel events
the zoom distance stays within `[MIN_ZOOM_DISTANCE, MAX_ZOOM_DISTANCE] =
[5, 25]`; each event changes it by at most `ZOOM_SPEED = 0.1`, increasing
it when `deltaY > 0` and decreasing it when `deltaY ≤ 0` (a zero `deltaY`
is treated as zoom-in, not as no change); and after each event the camera
is repositioned to `(0, 8, currentZoomDistance)` looking at the origin. -/
theorem c8_zoom_amended (deltas : List ℚ) (z deltaY : ℚ)
    (hz1 : CannonKinematic.MIN_ZOOM_DISTANCE ≤ z)
    (hz2 : z ≤ CannonKinematic.MAX_ZOOM_DISTANCE) :
    (CannonKinematic.MIN_ZOOM_DISTANCE ≤ CannonKinematic.zoomAfter deltas ∧
      CannonKinematic.zoomAfter deltas ≤ CannonKinematic.MAX_ZOOM_DISTANCE) ∧
    |CannonKinematic.stepZoom z deltaY - z| ≤ CannonKinematic.ZOOM_SPEED ∧
    (0 < deltaY → z ≤ CannonKinematic.stepZoom z deltaY) ∧
    (deltaY ≤ 0 → CannonKinematic.stepZoom z deltaY ≤ z) ∧
    CannonKinematic.onMouseWheel z deltaY =
      (CannonKinematic.stepZoom z deltaY,
       CannonKinematic.cameraPositionFor (CannonKinematic.stepZoom z deltaY),
       CannonKinematic.cameraLookAtTarget) := by
  refine ⟨?_, (stepZoom_move z deltaY hz1 hz2).1,
    (stepZoom_move z deltaY hz1 hz2).2.1, (stepZoom_move z deltaY hz1 hz2).2.2, rfl⟩
  exact zoomFold_mem deltas CannonKinematic.initialZoomDistance (by decide) (by decide)

/-- C8 witness: the amended statement evaluated after the event sequence
`[3, -2]` at distance 12 with a `deltaY = 1` event. -/
theorem c8_zoom_amended_witness :
    (CannonKinematic.MIN_ZOOM_DISTANCE ≤ CannonKinematic.zoomAfter [3, -2] ∧
      CannonKinematic.zoomAfter [3, -2] ≤ CannonKinematic.MAX_ZOOM_DISTANCE) ∧
    |CannonKinematic.stepZoom 12 1 - 12| ≤ CannonKinematic.ZOOM_SPEED ∧
    (0 < (1 : ℚ) → 12 ≤ CannonKinematic.stepZoom 12 1) ∧
    ((1 : ℚ) ≤ 0 → CannonKinematic.stepZoom 12 1 ≤ 12) ∧
    CannonKinematic.onMouseWheel 12 1 =
      (CannonKinematic.stepZoom 12 1,
       CannonKinematic.cameraPositionFor (CannonKinematic.stepZoom 12 1),
       CannonKinematic.cameraLookAtTarget) :=
  c8_zoom_amended [3, -2] 12 1 (by decide) (by decide)

/-- C6: `validatePhysicsAuthority` throws exactly when the torso rigid body
is absent, lacks a `getMotionState` function, or has the kinematic
collision flag (value 2) set; and `safeSetWorldTransform` throws exactly
when called with the torso body, otherwise forwarding the given transform
to the body's motion state unchanged. -/
theorem c6_fail_fast_checks :
    (∀ torso : Option AmmoMotor.ATorso,
        AmmoMotor.isError (AmmoMotor.validatePhysicsAuthority torso) = true ↔
          torso = none ∨
            ∃ t, torso = some t ∧
              (t.hasMotionStateFn = false ∨ t.collisionFlags &&& 2 ≠ 0)) ∧
    (∀ (torsoId : Nat) (body : AmmoMotor.ABody) (tf : Xform),
        (AmmoMotor.isError (AmmoMotor.safeSetWorldTransform torsoId body tf) = true ↔
          body.id = torsoId) ∧
        (body.id ≠ torsoId →
          AmmoMotor.safeSetWorldTransform torsoId body tf =
            .ok { body with motionStateXf := tf })) := by
  constructor
  · intro torso
    cases torso with
    | none => simp [AmmoMotor.validatePhysicsAuthority, AmmoMotor.isError]
    | some t =>
      by_cases h1 : t.hasMotionStateFn
      · by_cases h2 : t.collisionFlags &&& 2 ≠ 0
        · simp [AmmoMotor.validatePhysicsAuthority, AmmoMotor.isError, h1, h2]
        · simp [AmmoMotor.validatePhysicsAuthority, AmmoMotor.isError, h1, h2]
      · simp [AmmoMotor.validatePhysicsAuthority, AmmoMotor.isError, h1]
  · intro torsoId body tf
    by_cases h : body.id = torsoId
    · simp [AmmoMotor.safeSetWorldTransform, AmmoMotor.isError, h]
    · simp [AmmoMotor.safeSetWorldTransform, AmmoMotor.isError, h]

/-- C6 witness: a kinematic torso (collision flags 2) fails validation, and
`safeSetWorldTransform` on a non-torso body stores the given transform. -/
theorem c6_fail_fast_checks_witness :
    AmmoMotor.isError (AmmoMotor.validatePhysicsAuthority (some ⟨true, 2⟩)) = true ∧
    AmmoMotor.safeSetWorldTransform 0 ⟨1, ⟨⟨0, 0, 0⟩, ⟨0, 0, 0, 1⟩⟩⟩
        ⟨⟨1, 2, 3⟩, ⟨0, 0, 0, 1⟩⟩ =
      .ok ⟨1, ⟨⟨1, 2, 3⟩, ⟨0, 0, 0, 1⟩⟩⟩ :=
  ⟨(c6_fail_fast_checks.1 (some ⟨true, 2⟩)).mpr
      (Or.inr ⟨⟨true, 2⟩, rfl, Or.inr (by decide)⟩),
   (c6_fail_fast_checks.2 0 ⟨1, ⟨⟨0, 0, 0⟩, ⟨0, 0, 0, 1⟩⟩⟩ ⟨⟨1, 2, 3⟩, ⟨0, 0, 0, 1⟩⟩).2
      (by decide)⟩

/-- C7 counterexample: in a frame where `renderer.render` throws, the frame
body throws, yet the catch block's own unguarded `renderer.render` call
throws again, so an exception does propagate out of `animate` -
contradicting the claim that no exception ever propagates out. -/
theorem c7_animate_counterexample :
    CannonKinematic.tryBodyThrows ⟨false, true⟩ = true ∧
      (CannonKinematic.animateRun ⟨false, true⟩).raised = true := by
  decide

/-- C7 (amended): in every frame whose body throws, the error handler logs
the error and schedules exactly one more animation-frame callback (so a
next frame callback is always scheduled, in addition to the one scheduled
at the top of the try block), but the handler then calls
`renderer.render` unguarded, so an exception propagates out of `animate`
exactly when that render call throws. -/
theorem c7_animate_amended (f : CannonKinematic.FrameFaults)
    (h : CannonKinematic.tryBodyThrows f = true) :
    (CannonKinematic.animateRun f).errorLogged = true ∧
    (CannonKinematic.animateRun f).framesScheduled = 2 ∧
    (CannonKinematic.animateRun f).raised = f.renderThrows := by
  cases f with
  | mk s r =>
    cases s <;> cases r <;>
      simp_all [CannonKinematic.animateRun, CannonKinematic.tryBlockRun,
        CannonKinematic.catchBlockRun, CannonKinematic.tryBodyThrows]

/-- C7 witness: a frame where only the physics step throws logs the error,
schedules two callbacks, and raises nothing. -/
theorem c7_animate_amended_witness :
    (CannonKinematic.animateRun ⟨true, false⟩).errorLogged = true ∧
    (CannonKinematic.animateRun ⟨true, false⟩).framesScheduled = 2 ∧
    (CannonKinematic.animateRun ⟨true, false⟩).raised =
      (⟨true, false⟩ : CannonKinematic.FrameFaults).renderThrows :=
  c7_animate_amended ⟨true, false⟩ (by decide)

/-- Helper: the number of rigid bodies `setupPhysicsBodies` adds is one
(the kinematic `bodyBody`) plus one per limb whose reference exists. -/
theorem setupPhysicsBodies_length (p : Vec3) (rs : Limb → Option CannonKinematic.SceneNode) :
    (CannonKinematic.setupPhysicsBodies p rs).1.length =
      1 + (cond (rs .leftArm).isSome 1 0) + (cond (rs .rightArm).isSome 1 0) +
        (cond (rs .leftLeg).isSome 1 0) + (cond (rs .rightLeg).isSome 1 0) := by
  simp only [CannonKinematic.setupPhysicsBodies, limbList]
  cases h1 : rs .leftArm <;> cases h2 : rs .rightArm <;>
    cases h3 : rs .leftLeg <;> cases h4 : rs .rightLeg <;>
      simp [h1, h2, h3, h4]

/-- C3 counterexample: in a loaded model containing only the node
`left_arm`, `findToyParts` finds one named node, but physics setup adds
two rigid bodies (the always-created central `bodyBody` plus the left-arm
body), so the rigid body count differs from the found-named-node count. -/
theorem c3_body_count_counterexample :
    (CannonKinematic.setupPhysicsBodies ⟨0, 0, 0⟩
        (CannonKinematic.limbRefsOf [⟨"left_arm", ⟨⟨0, 0, 0⟩, ⟨0, 0, 0, 1⟩⟩⟩])).1.length = 2 ∧
    CannonKinematic.foundCount
        (CannonKinematic.findToyParts [⟨"left_arm", ⟨⟨0, 0, 0⟩, ⟨0, 0, 0, 1⟩⟩⟩]) = 1 ∧
    (2 : Nat) ≠ 1 := by
  refine ⟨?_, by decide, by decide⟩
  rw [setupPhysicsBodies_length]
  decide

/-- C3 (amended): the number of rigid bodies added by physics setup is one
more than the number of found limb nodes, because the central kinematic
body is always created; hence it equals the found-named-node count of
`findToyParts` exactly when `body_main` is among the found nodes. -/
theorem c3_body_count_amended (scene : List CannonKinematic.SceneNode) (p : Vec3) :
    ((CannonKinematic.setupPhysicsBodies p (CannonKinematic.limbRefsOf scene)).1.length =
        CannonKinematic.foundCount (CannonKinematic.findToyParts scene)) ↔
      (CannonKinematic.findToyParts scene).body = true := by
  rw [setupPhysicsBodies_length]
  simp only [CannonKinematic.foundCount, CannonKinematic.findToyParts,
    CannonKinematic.limbRefsOf, CannonKinematic.limbName]
  cases hb : (CannonKinematic.findRef scene "body_main").isSome <;>
    cases (CannonKinematic.findRef scene "left_arm").isSome <;>
      cases (CannonKinematic.findRef scene "right_arm").isSome <;>
        cases (CannonKinematic.findRef scene "left_leg").isSome <;>
          cases (CannonKinematic.findRef scene "right_leg").isSome <;> simp

/-- C4: physics setup creates exactly one rigid body and one hinge
constraint for every limb whose reference was found, and none for a limb
whose named node is absent; the setup function is total, so absent nodes
are skipped without raising any error. -/
theorem c4_limb_bodies_and_hinges (p : Vec3) (refs : Limb → Option CannonKinematic.SceneNode)
    (l : Limb) :
    ((CannonKinematic.setupPhysicsBodies p refs).1.countP
        (fun b => decide (b.owner = some l)) = cond (refs l).isSome 1 0) ∧
    ((CannonKinematic.setupPhysicsBodies p refs).2.countP
        (fun h => decide (h.limb = l)) = cond (refs l).isSome 1 0) := by
  simp only [CannonKinematic.setupPhysicsBodies, limbList]
  cases l <;>
    cases h1 : refs .leftArm <;> cases h2 : refs .rightArm <;>
      cases h3 : refs .leftLeg <;> cases h4 : refs .rightLeg <;>
        simp [h1, h2, h3, h4, CannonKinematic.kinematicBodyBody,
          CannonKinematic.mkLimbBody, CannonKinematic.mkLimbHinge, List.countP_cons]

/-- C5 counterexample: with no limb named node matched, part_001's load
callback throws a `ReferenceError` at the first read of the never-declared
`leftArmRef` (line 206, inside `findToyParts`) and aborts: the
missing-parts console warning (lines 118-119) is never produced, refuting
the claim that missing named nodes produce a console warning and a clean
skip of physics setup. -/
theorem c5_missing_nodes_counterexample :
    CannonBasic.onLoadPhysics (fun _ => false) = .error .referenceError ∧
    CannonBasic.LoadLog.warnNoPartsFound ∉
      CannonBasic.logsOf (CannonBasic.onLoadPhysics (fun _ => false)) := by
  refine ⟨rfl, ?_⟩
  rw [show CannonBasic.onLoadPhysics (fun _ => false) =
      .error .referenceError from rfl]
  simp [CannonBasic.logsOf]

/-- C5 (amended): part_001 never declares the four limb reference
variables, so whenever some limb named node is missing from the loaded
model the load callback throws a `ReferenceError` inside `findToyParts`
and aborts before the warn-and-skip branch: no warning is logged and
physics setup never runs; when every limb reference was assigned,
`hasAnyParts` is necessarily true and setup runs, so the warn-and-skip
branch is dead code and its warning is never produced on any input; the
toy does still fall back to simple kinematic rotation, since `bodyBody`
remains unset after an aborted callback: mouse position directly sets the
toy group's `rotation.x` and `rotation.y`. -/
theorem c5_missing_nodes_amended :
    (∀ assigned : Limb → Bool, (∃ l, assigned l = false) →
        CannonBasic.onLoadPhysics assigned = .error .referenceError) ∧
    (∀ assigned : Limb → Bool, (∀ l, assigned l = true) →
        CannonBasic.onLoadPhysics assigned =
          .ok (1 + CannonBasic.countLimbBodies assigned,
            [CannonBasic.LoadLog.foundPartsSettingUp])) ∧
    (∀ assigned : Limb → Bool,
        CannonBasic.LoadLog.warnNoPartsFound ∉
          CannonBasic.logsOf (CannonBasic.onLoadPhysics assigned)) ∧
    (∀ (st : CannonBasic.ToyState) (mouseX mouseY : ℚ),
        st.bodyBodyPresent = false → st.toyGroupPresent = true →
          (CannonBasic.updateToyInteraction st mouseX mouseY).rotationY =
              (mouseX : ℝ) * CannonBasic.maxToyTiltY ∧
            (CannonBasic.updateToyInteraction st mouseX mouseY).rotationX =
              (mouseY : ℝ) * CannonBasic.maxToyTiltX) := by
  refine ⟨?_, ?_, ?_, ?_⟩
  · rintro assigned ⟨l, hl⟩
    cases h1 : assigned .leftArm <;> cases h2 : assigned .rightArm <;>
      cases h3 : assigned .leftLeg <;> cases h4 : assigned .rightLeg <;>
        simp [CannonBasic.onLoadPhysics, CannonBasic.findToyPartsTail,
          CannonBasic.readLimbRef, CannonBasic.hasAnyPartsRead, h1, h2, h3, h4] <;>
        (cases l <;> simp_all)
  · intro assigned hall
    simp [CannonBasic.onLoadPhysics, CannonBasic.findToyPartsTail,
      CannonBasic.readLimbRef, CannonBasic.hasAnyPartsRead,
      hall .leftArm, hall .rightArm, hall .leftLeg, hall .rightLeg]
  · intro assigned
    cases h1 : assigned .leftArm <;> cases h2 : assigned .rightArm <;>
      cases h3 : assigned .leftLeg <;> cases h4 : assigned .rightLeg <;>
        simp [CannonBasic.onLoadPhysics, CannonBasic.findToyPartsTail,
          CannonBasic.readLimbRef, CannonBasic.hasAnyPartsRead,
          CannonBasic.logsOf, h1, h2, h3, h4]
  · intro st mouseX mouseY h1 h2
    simp [CannonBasic.updateToyInteraction, h1, h2]

/-- C5 witness: the amended statement evaluated at concrete inputs - no
limb assigned (the callback errors), all limbs assigned (setup runs with
five bodies counted), the dead warning at the no-limbs input, and the
fallback rotation at mouse `(1/2, -1/3)`. -/
theorem c5_missing_nodes_amended_witness :
    CannonBasic.onLoadPhysics (fun _ => true) =
      .ok (1 + CannonBasic.countLimbBodies (fun _ => true),
        [CannonBasic.LoadLog.foundPartsSettingUp]) ∧
    CannonBasic.LoadLog.warnNoPartsFound ∉
      CannonBasic.logsOf (CannonBasic.onLoadPhysics (fun _ => true)) ∧
    ((CannonBasic.updateToyInteraction
          ⟨false, true, ⟨0, 0, 0⟩, ⟨0, 0, 0⟩, 0, 0⟩ (1/2) (-(1/3))).rotationY =
        ((1/2 : ℚ) : ℝ) * CannonBasic.maxToyTiltY ∧
      (CannonBasic.updateToyInteraction
          ⟨false, true, ⟨0, 0, 0⟩, ⟨0, 0, 0⟩, 0, 0⟩ (1/2) (-(1/3))).rotationX =
        ((-(1/3) : ℚ) : ℝ) * CannonBasic.maxToyTiltX) :=
  ⟨c5_missing_nodes_amended.2.1 (fun _ => true) (fun _ => rfl),
   c5_missing_nodes_amended.2.2.1 (fun _ => true),
   c5_missing_nodes_amended.2.2.2 ⟨false, true, ⟨0, 0, 0⟩, ⟨0, 0, 0⟩, 0, 0⟩
     (1/2) (-(1/3)) rfl rfl⟩

/-- C2: in every animation frame of the kinematic Cannon.js variant with
the physics body present, the world is stepped exactly once (the step
counter increases by one and the post-frame physics transforms are the
step function applied once to the pre-frame ones), every toy part whose
render reference and rigid body both exist has its render transform set to
that body's post-step transform, and the scene handed to the renderer at
the end of the frame is exactly the post-sync state. -/
theorem c2_frame_step_and_sync
    (stepWorld : CannonKinematic.PhysSnapshot → CannonKinematic.PhysSnapshot)
    (st : CannonKinematic.KFrameState) (h : st.bodyPresent = true) :
    (CannonKinematic.animateFrame stepWorld st).1.steps = st.steps + 1 ∧
    (CannonKinematic.animateFrame stepWorld st).1.bodyXf =
      (stepWorld ⟨st.bodyXf, st.limbBodyXf⟩).bodyXf ∧
    (st.toyGroupPresent = true →
      (CannonKinematic.animateFrame stepWorld st).2.toyGroupXf =
        (stepWorld ⟨st.bodyXf, st.limbBodyXf⟩).bodyXf) ∧
    (∀ l, st.limbRefPresent l = true → st.limbBodyPresent l = true →
      (CannonKinematic.animateFrame stepWorld st).2.limbXf l =
        (stepWorld ⟨st.bodyXf, st.limbBodyXf⟩).limbXf l) ∧
    (CannonKinematic.animateFrame stepWorld st).1.toyGroupXf =
      (CannonKinematic.animateFrame stepWorld st).2.toyGroupXf ∧
    (∀ l, (CannonKinematic.animateFrame stepWorld st).1.limbRefXf l =
      (CannonKinematic.animateFrame stepWorld st).2.limbXf l) := by
  refine ⟨?_, ?_, ?_, ?_, ?_, ?_⟩
  · simp [CannonKinematic.animateFrame, h]
  · simp [CannonKinematic.animateFrame, h]
  · intro hg
    simp [CannonKinematic.animateFrame, h, hg]
  · intro l hr hb
    simp [CannonKinematic.animateFrame, h, hr, hb]
  · simp [CannonKinematic.animateFrame, h]
  · intro l
    simp [CannonKinematic.animateFrame, h]

/-- C2 witness: the frame theorem evaluated with the identity step function
on a state where every reference and body exists. -/
theorem c2_frame_step_and_sync_witness :
    (CannonKinematic.animateFrame id
        ⟨true, 0, ⟨⟨0, 0, 0⟩, ⟨0, 0, 0, 1⟩⟩, fun _ => true,
         fun _ => ⟨⟨1, 0, 0⟩, ⟨0, 0, 0, 1⟩⟩, true, ⟨⟨0, 0, 0⟩, ⟨0, 0, 0, 1⟩⟩,
         fun _ => true, fun _ => ⟨⟨2, 0, 0⟩, ⟨0, 0, 0, 1⟩⟩⟩).1.steps = 0 + 1 ∧
    (CannonKinematic.animateFrame id
        ⟨true, 0, ⟨⟨0, 0, 0⟩, ⟨0, 0, 0, 1⟩⟩, fun _ => true,
         fun _ => ⟨⟨1, 0, 0⟩, ⟨0, 0, 0, 1⟩⟩, true, ⟨⟨0, 0, 0⟩, ⟨0, 0, 0, 1⟩⟩,
         fun _ => true, fun _ => ⟨⟨2, 0, 0⟩, ⟨0, 0, 0, 1⟩⟩⟩).1.bodyXf =
      (id (⟨⟨⟨0, 0, 0⟩, ⟨0, 0, 0, 1⟩⟩, fun _ => ⟨⟨1, 0, 0⟩, ⟨0, 0, 0, 1⟩⟩⟩ :
        CannonKinematic.PhysSnapshot)).bodyXf ∧
    (true = true →
      (CannonKinematic.animateFrame id
          ⟨true, 0, ⟨⟨0, 0, 0⟩, ⟨0, 0, 0, 1⟩⟩, fun _ => true,
           fun _ => ⟨⟨1, 0, 0⟩, ⟨0, 0, 0, 1⟩⟩, true, ⟨⟨0, 0, 0⟩, ⟨0, 0, 0, 1⟩⟩,
           fun _ => true, fun _ => ⟨⟨2, 0, 0⟩, ⟨0, 0, 0, 1⟩⟩⟩).2.toyGroupXf =
        (id (⟨⟨⟨0, 0, 0⟩, ⟨0, 0, 0, 1⟩⟩, fun _ => ⟨⟨1, 0, 0⟩, ⟨0, 0, 0, 1⟩⟩⟩ :
          CannonKinematic.PhysSnapshot)).bodyXf) ∧
    (∀ l, true = true → true = true →
      (CannonKinematic.animateFrame id
          ⟨true, 0, ⟨⟨0, 0, 0⟩, ⟨0, 0, 0, 1⟩⟩, fun _ => true,
           fun _ => ⟨⟨1, 0, 0⟩, ⟨0, 0, 0, 1⟩⟩, true, ⟨⟨0, 0, 0⟩, ⟨0, 0, 0, 1⟩⟩,
           fun _ => true, fun _ => ⟨⟨2, 0, 0⟩, ⟨0, 0, 0, 1⟩⟩⟩).2.limbXf l =
        (id (⟨⟨⟨0, 0, 0⟩, ⟨0, 0, 0, 1⟩⟩, fun _ => ⟨⟨1, 0, 0⟩, ⟨0, 0, 0, 1⟩⟩⟩ :
          CannonKinematic.PhysSnapshot)).limbXf l) ∧
    (CannonKinematic.animateFrame id
        ⟨true, 0, ⟨⟨0, 0, 0⟩, ⟨0, 0, 0, 1⟩⟩, fun _ => true,
         fun _ => ⟨⟨1, 0, 0⟩, ⟨0, 0, 0, 1⟩⟩, true, ⟨⟨0, 0, 0⟩, ⟨0, 0, 0, 1⟩⟩,
         fun _ => true, fun _ => ⟨⟨2, 0, 0⟩, ⟨0, 0, 0, 1⟩⟩⟩).1.toyGroupXf =
      (CannonKinematic.animateFrame id
        ⟨true, 0, ⟨⟨0, 0, 0⟩, ⟨0, 0, 0, 1⟩⟩, fun _ => true,
         fun _ => ⟨⟨1, 0, 0⟩, ⟨0, 0, 0, 1⟩⟩, true, ⟨⟨0, 0, 0⟩, ⟨0, 0, 0, 1⟩⟩,
         fun _ => true, fun _ => ⟨⟨2, 0, 0⟩, ⟨0, 0, 0, 1⟩⟩⟩).2.toyGroupXf ∧
    (∀ l, (CannonKinematic.animateFrame id
        ⟨true, 0, ⟨⟨0, 0, 0⟩, ⟨0, 0, 0, 1⟩⟩, fun _ => true,
         fun _ => ⟨⟨1, 0, 0⟩, ⟨0, 0, 0, 1⟩⟩, true, ⟨⟨0, 0, 0⟩, ⟨0, 0, 0, 1⟩⟩,
         fun _ => true, fun _ => ⟨⟨2, 0, 0⟩, ⟨0, 0, 0, 1⟩⟩⟩).1.limbRefXf l =
      (CannonKinematic.animateFrame id
        ⟨true, 0, ⟨⟨0, 0, 0⟩, ⟨0, 0, 0, 1⟩⟩, fun _ => true,
         fun _ => ⟨⟨1, 0, 0⟩, ⟨0, 0, 0, 1⟩⟩, true, ⟨⟨0, 0, 0⟩, ⟨0, 0, 0, 1⟩⟩,
         fun _ => true, fun _ => ⟨⟨2, 0, 0⟩, ⟨0, 0, 0, 1⟩⟩⟩).2.limbXf l) :=
  c2_frame_step_and_sync id
    ⟨true, 0, ⟨⟨0, 0, 0⟩, ⟨0, 0, 0, 1⟩⟩, fun _ => true,
     fun _ => ⟨⟨1, 0, 0⟩, ⟨0, 0, 0, 1⟩⟩, true, ⟨⟨0, 0, 0⟩, ⟨0, 0, 0, 1⟩⟩,
     fun _ => true, fun _ => ⟨⟨2, 0, 0⟩, ⟨0, 0, 0, 1⟩⟩⟩ rfl

/-- Helper: a rational factor in `[-1, 1]` scales a nonnegative real bound
into `[-c, c]`. -/
theorem abs_unit_mul_le (m : ℚ) (c : ℝ) (h1 : -1 ≤ m) (h2 : m ≤ 1) (hc : 0 ≤ c) :
    |(m : ℝ) * c| ≤ c := by
  rw [abs_mul, abs_of_nonneg hc]
  have hm : |(m : ℝ)| ≤ 1 := by
    rw [abs_le]
    constructor
    · exact_mod_cast h1
    · exact_mod_cast h2
  exact mul_le_of_le_one_left hc hm

/-- C1: for a mouse-move event with `clientX` in `[0, innerWidth]` and
`clientY` in `[0, innerHeight]`, the normalized mouse coordinates lie in
`[-1, 1]`, and the tilt angles computed from them in
`updateToyInteraction` - the linear functions `mouse.x * maxToyTiltY` and
`mouse.y * maxToyTiltX` - lie in `[-maxToyTiltY, maxToyTiltY]` and
`[-maxToyTiltX, maxToyTiltX]` respectively. -/
theorem c1_mouse_tilt_bounds (clientX clientY innerWidth innerHeight : ℚ)
    (hw : 0 < innerWidth) (hh : 0 < innerHeight)
    (hx1 : 0 ≤ clientX) (hx2 : clientX ≤ innerWidth)
    (hy1 : 0 ≤ clientY) (hy2 : clientY ≤ innerHeight) :
    (-1 ≤ CannonKinematic.mouseXOf clientX innerWidth ∧
      CannonKinematic.mouseXOf clientX innerWidth ≤ 1) ∧
    (-1 ≤ CannonKinematic.mouseYOf clientY innerHeight ∧
      CannonKinematic.mouseYOf clientY innerHeight ≤ 1) ∧
    |CannonKinematic.leftRightAngle (CannonKinematic.mouseXOf clientX innerWidth)| ≤
      CannonKinematic.maxToyTiltY ∧
    |CannonKinematic.frontBackAngle (CannonKinematic.mouseYOf clientY innerHeight)| ≤
      CannonKinematic.maxToyTiltX := by
  have hrx1 : 0 ≤ clientX / innerWidth := div_nonneg hx1 hw.le
  have hrx2 : clientX / innerWidth ≤ 1 := (div_le_one hw).mpr hx2
  have hry1 : 0 ≤ clientY / innerHeight := div_nonneg hy1 hh.le
  have hry2 : clientY / innerHeight ≤ 1 := (div_le_one hh).mpr hy2
  have hmx1 : -1 ≤ CannonKinematic.mouseXOf clientX innerWidth := by
    unfold CannonKinematic.mouseXOf; linarith
  have hmx2 : CannonKinematic.mouseXOf clientX innerWidth ≤ 1 := by
    unfold CannonKinematic.mouseXOf; linarith
  have hmy1 : -1 ≤ CannonKinematic.mouseYOf clientY innerHeight := by
    unfold CannonKinematic.mouseYOf; linarith
  have hmy2 : CannonKinematic.mouseYOf clientY innerHeight ≤ 1 := by
    unfold CannonKinematic.mouseYOf; linarith
  have hty : (0 : ℝ) ≤ CannonKinematic.maxToyTiltY := by
    unfold CannonKinematic.maxToyTiltY
    have := Real.pi_pos
    linarith
  have htx : (0 : ℝ) ≤ CannonKinematic.maxToyTiltX := by
    unfold CannonKinematic.maxToyTiltX
    have := Real.pi_pos
    linarith
  exact ⟨⟨hmx1, hmx2⟩, ⟨hmy1, hmy2⟩,
    abs_unit_mul_le _ _ hmx1 hmx2 hty,
    abs_unit_mul_le _ _ hmy1 hmy2 htx⟩

/-- C1 witness: the bounds evaluated at the concrete event
`clientX = 30, clientY = 40` in a `100 x 80` window. -/
theorem c1_mouse_tilt_bounds_witness :
    (-1 ≤ CannonKinematic.mouseXOf 30 100 ∧ CannonKinematic.mouseXOf 30 100 ≤ 1) ∧
    (-1 ≤ CannonKinematic.mouseYOf 40 80 ∧ CannonKinematic.mouseYOf 40 80 ≤ 1) ∧
    |CannonKinematic.leftRightAngle (CannonKinematic.mouseXOf 30 100)| ≤
      CannonKinematic.maxToyTiltY ∧
    |CannonKinematic.frontBackAngle (CannonKinematic.mouseYOf 40 80)| ≤
      CannonKinematic.maxToyTiltX :=
  c1_mouse_tilt_bounds 30 40 100 80 (by norm_num) (by norm_num) (by norm_num)
    (by norm_num) (by norm_num) (by norm_num)

/-- Helper: a vanishing sum of four real squares forces every term to
vanish. -/
theorem sq4_eq_zero {a b c d : ℝ} (h : a ^ 2 + b ^ 2 + c ^ 2 + d ^ 2 = 0) :
    a = 0 ∧ b = 0 ∧ c = 0 ∧ d = 0 := by
  have ha : a ^ 2 = 0 :=
    le_antisymm (by nlinarith [sq_nonneg b, sq_nonneg c, sq_nonneg d]) (sq_nonneg a)
  have hb : b ^ 2 = 0 :=
    le_antisymm (by nlinarith [sq_nonneg a, sq_nonneg c, sq_nonneg d]) (sq_nonneg b)
  have hc : c ^ 2 = 0 :=
    le_antisymm (by nlinarith [sq_nonneg a, sq_nonneg b, sq_nonneg d]) (sq_nonneg c)
  have hd : d ^ 2 = 0 :=
    le_antisymm (by nlinarith [sq_nonneg a, sq_nonneg b, sq_nonneg c]) (sq_nonneg d)
  exact ⟨pow_eq_zero_iff (two_ne_zero) |>.mp ha, pow_eq_zero_iff (two_ne_zero) |>.mp hb,
    pow_eq_zero_iff (two_ne_zero) |>.mp hc, pow_eq_zero_iff (two_ne_zero) |>.mp hd⟩

/-- Helper: a nonzero quaternion has positive length. -/
theorem quatLen_pos_of_ne (q : CannonKinematic.QuatR)
    (h : q ≠ ⟨0, 0, 0, 0⟩) : 0 < CannonKinematic.quatLen q := by
  unfold CannonKinematic.quatLen
  apply Real.sqrt_pos.mpr
  rcases lt_or_eq_of_le
      (by positivity : (0 : ℝ) ≤ q.x ^ 2 + q.y ^ 2 + q.z ^ 2 + q.w ^ 2) with hlt | heq
  · exact hlt
  · exfalso
    obtain ⟨hx, hy, hz, hw⟩ := sq4_eq_zero heq.symm
    apply h
    calc q = ⟨q.x, q.y, q.z, q.w⟩ := rfl
    _ = ⟨0, 0, 0, 0⟩ := by rw [hx, hy, hz, hw]

/-- C9: whenever the linearly interpolated quaternion (0.85 times the
current orientation plus 0.15 times the spin-times-tilt target) is
nonzero, `updateToyInteraction` renormalizes the stored body quaternion to
unit length, so the kinematic driver's orientation has norm 1 in exact
arithmetic. -/
theorem c9_kinematic_quaternion_unit (current target : CannonKinematic.QuatR)
    (h : CannonKinematic.lerpQuat current target ≠ ⟨0, 0, 0, 0⟩) :
    CannonKinematic.quatLen (CannonKinematic.updateBodyQuaternion current target) = 1 := by
  set q := CannonKinematic.lerpQuat current target with hq
  have hpos : 0 < CannonKinematic.quatLen q := quatLen_pos_of_ne q h
  have hne : CannonKinematic.quatLen q ≠ 0 := ne_of_gt hpos
  have hS : CannonKinematic.quatLen q ^ 2 = q.x ^ 2 + q.y ^ 2 + q.z ^ 2 + q.w ^ 2 := by
    unfold CannonKinematic.quatLen
    exact Real.sq_sqrt (by positivity)
  have hstep : CannonKinematic.updateBodyQuaternion current target =
      ⟨q.x / CannonKinematic.quatLen q, q.y / CannonKinematic.quatLen q,
       q.z / CannonKinematic.quatLen q, q.w / CannonKinematic.quatLen q⟩ := by
    rw [show CannonKinematic.updateBodyQuaternion current target =
        CannonKinematic.normalizeQuatStep q from rfl]
    unfold CannonKinematic.normalizeQuatStep
    rw [if_pos hpos]
  have hone : (q.x / CannonKinematic.quatLen q) ^ 2 + (q.y / CannonKinematic.quatLen q) ^ 2 +
      (q.z / CannonKinematic.quatLen q) ^ 2 + (q.w / CannonKinematic.quatLen q) ^ 2 = 1 := by
    field_simp
    linarith [hS]
  rw [hstep,
    show CannonKinematic.quatLen
        ⟨q.x / CannonKinematic.quatLen q, q.y / CannonKinematic.quatLen q,
         q.z / CannonKinematic.quatLen q, q.w / CannonKinematic.quatLen q⟩ =
      Real.sqrt ((q.x / CannonKinematic.quatLen q) ^ 2 + (q.y / CannonKinematic.quatLen q) ^ 2 +
        (q.z / CannonKinematic.quatLen q) ^ 2 + (q.w / CannonKinematic.quatLen q) ^ 2) from rfl,
    hone, Real.sqrt_one]

/-- C9 witness: lerping the identity quaternion towards itself gives the
nonzero quaternion `(0,0,0,1)`, and the update leaves it at unit length. -/
theorem c9_kinematic_quaternion_unit_witness :
    CannonKinematic.quatLen
      (CannonKinematic.updateBodyQuaternion ⟨0, 0, 0, 1⟩ ⟨0, 0, 0, 1⟩) = 1 :=
  c9_kinematic_quaternion_unit ⟨0, 0, 0, 1⟩ ⟨0, 0, 0, 1⟩ (by
    intro hcontra
    have hw := congrArg CannonKinematic.QuatR.w hcontra
    simp only [CannonKinematic.lerpQuat, CannonKinematic.slerpFactor] at hw
    norm_num at hw)

/-- C10: if any detached limb reference exists whose parent is not the
scene, `syncPhysicsToThree` returns without modifying any Three.js
position or quaternion; likewise, when the torso body and `bodyMainRef`
exist and the torso's physics transform contains a NaN component, the
function returns before writing any transform that frame. -/
theorem c10_sync_no_partial_writes (st : AmmoMotor.SyncState) :
    (AmmoMotor.limbsStillParented st = true →
        AmmoMotor.syncPhysicsToThree st = AmmoMotor.unchangedOut st) ∧
    (∀ (tb : AmmoMotor.MBody) (t : AmmoMotor.NXform),
        st.torsoBody = some tb → tb.motionState = some t →
        st.bodyMainPresent = true → t.hasNaN = true →
        AmmoMotor.syncPhysicsToThree st = AmmoMotor.unchangedOut st) := by
  constructor
  · intro h
    by_cases h0 : (!st.ammoLoaded || st.torsoBody.isNone) = true
    · simp [AmmoMotor.syncPhysicsToThree, h0]
    · simp [AmmoMotor.syncPhysicsToThree, h0, h]
  · intro tb t htb hms hbm hnan
    by_cases h0 : (!st.ammoLoaded || st.torsoBody.isNone) = true
    · simp [AmmoMotor.syncPhysicsToThree, h0]
    · by_cases h1 : AmmoMotor.limbsStillParented st = true
      · simp [AmmoMotor.syncPhysicsToThree, h0, h1]
      · simp [AmmoMotor.syncPhysicsToThree, h0, h1, htb, hbm, hms, hnan]

/-- C10 witness: a state whose limbs are still parented is left untouched,
and a state whose torso transform has a NaN x-component is left
untouched. -/
theorem c10_sync_no_partial_writes_witness :
    AmmoMotor.syncPhysicsToThree
        ⟨true, some ⟨some ⟨some 0, some 0, some 0, some 0, some 0, some 0, some 1⟩⟩,
         true, fun _ => some ⟨false⟩, fun _ => none,
         ⟨0, 0, 0, 0, 0, 0, 1⟩, fun _ => ⟨0, 0, 0, 0, 0, 0, 1⟩⟩ =
      AmmoMotor.unchangedOut
        ⟨true, some ⟨some ⟨some 0, some 0, some 0, some 0, some 0, some 0, some 1⟩⟩,
         true, fun _ => some ⟨false⟩, fun _ => none,
         ⟨0, 0, 0, 0, 0, 0, 1⟩, fun _ => ⟨0, 0, 0, 0, 0, 0, 1⟩⟩ ∧
    AmmoMotor.syncPhysicsToThree
        ⟨true, some ⟨some ⟨none, some 0, some 0, some 0, some 0, some 0, some 1⟩⟩,
         true, fun _ => some ⟨true⟩, fun _ => none,
         ⟨0, 0, 0, 0, 0, 0, 1⟩, fun _ => ⟨0, 0, 0, 0, 0, 0, 1⟩⟩ =
      AmmoMotor.unchangedOut
        ⟨true, some ⟨some ⟨none, some 0, some 0, some 0, some 0, some 0, some 1⟩⟩,
         true, fun _ => some ⟨true⟩, fun _ => none,
         ⟨0, 0, 0, 0, 0, 0, 1⟩, fun _ => ⟨0, 0, 0, 0, 0, 0, 1⟩⟩ :=
  ⟨(c10_sync_no_partial_writes
      ⟨true, some ⟨some ⟨some 0, some 0, some 0, some 0, some 0, some 0, some 1⟩⟩,
       true, fun _ => some ⟨false⟩, fun _ => none,
       ⟨0, 0, 0, 0, 0, 0, 1⟩, fun _ => ⟨0, 0, 0, 0, 0, 0, 1⟩⟩).1 rfl,
   (c10_sync_no_partial_writes
      ⟨true, some ⟨some ⟨none, some 0, some 0, some 0, some 0, some 0, some 1⟩⟩,
       true, fun _ => some ⟨true⟩, fun _ => none,
       ⟨0, 0, 0, 0, 0, 0, 1⟩, fun _ => ⟨0, 0, 0, 0, 0, 0, 1⟩⟩).2
     ⟨some ⟨none, some 0, some 0, some 0, some 0, some 0, some 1⟩⟩
     ⟨none, some 0, some 0, some 0, some 0, some 0, some 1⟩ rfl rfl rfl rfl⟩
